import Mathlib

/-!
Verification development for the session-analysis service
(`backend_integration_routes.py` and `session-agent/app/logic.py`).

The Python code is shallowly embedded:

* BSON/JSON document values become the inductive `BVal`; a document is an
  association list `Doc`.  `dget` models `dict.get(key, default)` (the stored
  value is returned verbatim when the key is present, even when it is null),
  `dlookup` models `dict[key]` access modulo the KeyError, and `pyTruthy`
  models Python truthiness on the embedded value universe.
* Python floats produced by the score computation are modelled as exact
  rationals; `pyTrunc` models `int(...)` (truncation toward zero).  Every
  float that the scoring code can produce (100, 80, 90, 30, 24, 27) is exact
  in binary floating point, so the rational model agrees with CPython here.
* The OpenAI call is an external effect; it enters each embedded function as
  an `Except String String` argument: `.ok text` is a successful completion,
  `.error e` is a raised exception carrying the message `str(e)`.
* `datetime.utcnow()` timestamps are passed in as `Nat` arguments.
* Route handlers raise exceptions (`PyErr`); every route body is wrapped by
  `wrapRoute`, the embedding of the blanket
  `except Exception as e: raise HTTPException(status_code=500, ...)`
  clause present in all four handlers.  Note that FastAPI's `HTTPException`
  is itself a subclass of `Exception`, so the wrapper also catches the 404s
  raised inside the `try` block; `errStr` models `str(e)` for an
  `HTTPException` as the starlette rendering "status: detail".
* `ObjectId(...)` conversion is treated as the identity on the id string;
  the collections are keyed by those strings.
-/

/-- Embedded BSON/JSON value universe for documents held in the store. -/
inductive BVal where
  | null
  | bool (b : Bool)
  | int (n : Int)
  | str (s : String)
  | arr (xs : List BVal)
  | doc (kvs : List (String × BVal))

/-- A document is a finite key/value mapping, embedded as an association
list (first binding wins, as in a Python dict with unique keys). -/
abbrev Doc := List (String × BVal)

/-- Lookup of a key in a document: `some v` when the key is present (even
when the stored value is `BVal.null`), `none` when the key is absent. -/
def dlookup (d : Doc) (k : String) : Option BVal :=
  (d.find? (fun p => p.1 == k)).map (fun p => p.2)

/-- Embedding of Python `d.get(k, dflt)`: the stored value verbatim when the
key is present, otherwise the default. -/
def dget (d : Doc) (k : String) (dflt : BVal) : BVal :=
  (dlookup d k).getD dflt

/-- Python truthiness on the embedded value universe: None, False, 0, empty
string, empty list and empty dict are falsy, everything else is truthy. -/
def pyTruthy : BVal → Bool
  | .null => false
  | .bool b => b
  | .int n => n != 0
  | .str s => !s.isEmpty
  | .arr xs => !xs.isEmpty
  | .doc kvs => !kvs.isEmpty

/-- A value usable as a Python number in `sum(...)` (ints and bools add;
anything else raises TypeError, modelled as `none`). -/
def asNum : BVal → Option Int
  | .int n => some n
  | .bool b => some (if b then 1 else 0)
  | _ => none

/-- Option-valued map over a list, failing as soon as one element fails
(models a Python comprehension/generator that can raise). -/
def mapO (f : α → Option β) : List α → Option (List β)
  | [] => some []
  | a :: as =>
    match f a, mapO f as with
    | some b, some bs => some (b :: bs)
    | _, _ => none

/-- Embedding of Python `int(q)`: truncation toward zero. -/
def pyTrunc (q : ℚ) : Int :=
  if 0 ≤ q then q.num.ediv q.den else -((-q).num.ediv (-q).den)

theorem pyTrunc_intCast (n : ℤ) : pyTrunc ((n : ℚ)) = n := by
  unfold pyTrunc
  rcases le_or_lt 0 n with h | h
  · rw [if_pos (by exact_mod_cast h)]
    rw [Rat.num_intCast, Rat.den_intCast]
    exact Int.ediv_one n
  · rw [if_neg (by exact_mod_cast not_le.mpr h)]
    rw [← Int.cast_neg, Rat.num_intCast, Rat.den_intCast]
    have h2 : (-n).ediv (((1 : ℕ) : ℤ)) = -n := Int.ediv_one (-n)
    rw [h2]
    exact neg_neg n

/-- Pydantic model `StepResult` from `backend_integration_routes.py`
(`is_successful`, `duration_seconds` and `details` are Optional). -/
structure StepResult where
  step_id : Int
  step_type : String
  is_successful : Option Bool := none
  duration_seconds : Option Int := none
  details : Option Doc := none

/-- Embedding of `calculate_performance_score` (lines 368-382).  The guard
`if step_result.duration_seconds:` is a Python truthiness test, so both a
missing duration and a zero duration skip the adjustment. -/
def calculate_performance_score (step_result : StepResult) : Int :=
  match step_result.is_successful with
  | none => 0
  | some ok =>
    let base_score : ℚ := if ok then 100 else 30
    let adjusted : ℚ :=
      match step_result.duration_seconds with
      | some d =>
        if d != 0 then
          if d < 60 then base_score * (8 / 10)
          else if d > 300 then base_score * (9 / 10)
          else base_score
        else base_score
      | none => base_score
    min 100 (max 0 (pyTrunc adjusted))

/-- Embedding of `str.lower()` on the alphabet this service actually sees:
ASCII letters plus the Turkish uppercase letters used by the prompts and
keywords.  As in CPython, the dotted capital I lowers to a two-character
sequence (small i followed by combining dot above). -/
def pyLowerChar (c : Char) : List Char :=
  if c = 'İ' then ['i', '̇']
  else if c = 'Ö' then ['ö']
  else if c = 'Ü' then ['ü']
  else if c = 'Ç' then ['ç']
  else if c = 'Ş' then ['ş']
  else if c = 'Ğ' then ['ğ']
  else [c.toLower]

/-- Lowercasing of a whole string, character by character. -/
def pyLower (s : String) : String :=
  ⟨(s.data.map pyLowerChar).flatten⟩

/-- Does `l` start with `n`?  (Helper for the substring test.) -/
def prefMatch : List Char → List Char → Bool
  | [], _ => true
  | _ :: _, [] => false
  | a :: as, b :: bs => a == b && prefMatch as bs

/-- Embedding of the Python substring operator `n in h` on strings, as a
scan over character lists. -/
def subAt (n : List Char) : List Char → Bool
  | [] => n.isEmpty
  | b :: bs => prefMatch n (b :: bs) || subAt n bs

theorem prefMatch_iff (n l : List Char) :
    prefMatch n l = true ↔ ∃ t, l = n ++ t := by
  induction n generalizing l with
  | nil =>
    simp [prefMatch]
  | cons a as ih =>
    cases l with
    | nil =>
      simp [prefMatch]
    | cons b bs =>
      rw [prefMatch, Bool.and_eq_true, beq_iff_eq, ih]
      constructor
      · rintro ⟨rfl, t, rfl⟩
        exact ⟨t, rfl⟩
      · rintro ⟨t, ht⟩
        injection ht with h1 h2
        exact ⟨h1.symm, t, h2⟩

theorem subAt_iff (n h : List Char) :
    subAt n h = true ↔ ∃ l r, h = l ++ n ++ r := by
  induction h with
  | nil =>
    rw [subAt, List.isEmpty_iff]
    constructor
    · rintro rfl
      exact ⟨[], [], rfl⟩
    · rintro ⟨l, r, hE⟩
      rcases List.append_eq_nil.mp (List.append_eq_nil.mp hE.symm).1 with ⟨-, h2⟩
      exact h2
  | cons b bs ih =>
    rw [subAt, Bool.or_eq_true, prefMatch_iff, ih]
    constructor
    · rintro (⟨t, ht⟩ | ⟨l, r, rfl⟩)
      · exact ⟨[], t, by simpa using ht⟩
      · exact ⟨b :: l, r, rfl⟩
    · rintro ⟨l, r, hE⟩
      cases l with
      | nil =>
        left
        exact ⟨r, by simpa using hE⟩
      | cons x xs =>
        right
        injection hE with h1 h2
        exact ⟨xs, r, h2⟩

/-- The fixed keyword set of `extract_suggestions` (line 399). -/
def suggestionKeywords : List String := ["öneri", "tavsiye", "gelişim", "çalış"]

/-- Embedding of `extract_suggestions` (lines 391-403): split the final
text into lines, strip each line, keep a line when its lowercasing contains
one of the fixed keywords and its stripped length exceeds 10, and return at
most the first 5 matches in order. -/
def extract_suggestions (final_text : String) : List String :=
  (((final_text.splitOn "\n").map String.trim).filter
    (fun line =>
      suggestionKeywords.any (fun kw => subAt kw.data (pyLower line).data)
        && decide (10 < line.length))).take 5

/-- Per-step analysis record produced by `generate_step_analysis`. -/
structure StepAnalysis where
  step_id : Int
  step_type : String
  analysis : String
  performance_score : Int
  generated_at : Nat

/-- The bucketed `step_reports` structure of the report document.  The
`final_report` and `suggestion` slots start out as empty dicts in the code;
`none` models that initial empty-dict state, `some` the finalized value. -/
structure StepReports where
  voice_reports : List (String × StepAnalysis)
  game_reports : List (String × StepAnalysis)
  test_reports : List (String × StepAnalysis)
  final_report : Option String
  suggestion : Option (List String)

/-- The empty bucket structure created by the session-init route. -/
def emptyStepReports : StepReports :=
  { voice_reports := [], game_reports := [], test_reports := [],
    final_report := none, suggestion := none }

/-- Embedding of `calculate_overall_score` (lines 384-389):
`session.get("total_score", 0)` returns the stored value verbatim whenever
the key is present (even a null or a string), and 0 only when the key is
absent; the `try/except` around it can never fire.  The `all_reports`
argument is ignored, as in the source. -/
def calculate_overall_score (session : Doc) (_all_reports : StepReports) : BVal :=
  dget session "total_score" (BVal.int 0)

/-- The three step types possessing a prompt branch in
`generate_step_analysis` (lines 217-267). -/
def knownStepTypes : List String := ["AI_CONVERSATION", "AI_CV_GAME", "AI_QUIZ"]

/-- Embedding of `generate_step_analysis` (lines 201-297).  The child,
session and lesson context only feeds the prompt text, which is consumed by
the external LLM; the outcome of the whole prompt-plus-LLM attempt enters as
`llm`.  For a step type with no prompt branch the variable `prompt` is
unbound, so the attempt deterministically raises a NameError before the LLM
is consulted.  Every exception is caught and turned into a degraded record
whose analysis text embeds the message and whose score is forced to 0. -/
def generate_step_analysis (step_result : StepResult)
    (llm : Except String String) (now : Nat) : StepAnalysis :=
  let attempt : Except String String :=
    if knownStepTypes.contains step_result.step_type then llm
    else Except.error "name prompt is not defined"
  match attempt with
  | Except.ok analysis_text =>
    { step_id := step_result.step_id, step_type := step_result.step_type,
      analysis := analysis_text,
      performance_score := calculate_performance_score step_result,
      generated_at := now }
  | Except.error e =>
    { step_id := step_result.step_id, step_type := step_result.step_type,
      analysis := "Analiz hatası: " ++ e,
      performance_score := 0,
      generated_at := now }

/-- Result shape of `generate_final_analysis` (its `overall_score` is the
raw stored value, see `calculate_overall_score`). -/
structure FinalAnalysis where
  final_report : String
  suggestions : List String
  overall_score : BVal
  generated_at : Nat

/-- Embedding of `generate_final_analysis` (lines 299-356).  The child,
lesson and accumulated report feed only the prompt; the LLM outcome enters
as `llm`.  On success the suggestions are extracted from the returned text
and the overall score is read from the session; on any failure a localized
error report with a placeholder suggestion list and score 0 is returned. -/
def generate_final_analysis (session : Doc) (all_reports : StepReports)
    (llm : Except String String) (now : Nat) : FinalAnalysis :=
  match llm with
  | Except.ok final_text =>
    { final_report := final_text,
      suggestions := extract_suggestions final_text,
      overall_score := calculate_overall_score session all_reports,
      generated_at := now }
  | Except.error e =>
    { final_report := "Final analiz hatası: " ++ e,
      suggestions := ["Teknik hata nedeniyle öneri üretilemedi"],
      overall_score := BVal.int 0,
      generated_at := now }

/-- One `llm_reports` document as created by the session-init route.  The
`child_id` field stores the value found in the session document (its
`str(...)` serialization is not observed by any claim). -/
structure Report where
  _id : Nat
  session_id : String
  child_id : BVal
  step_reports : StepReports
  created_at : Nat
  updated_at : Nat
  finalized_at : Option Nat

/-- The four collections the routes touch.  `sessions`, `children` and
`lessons` are keyed by their id string; `llm_reports` is a plain collection
searched by field. -/
structure DB where
  sessions : List (String × Doc)
  children : List (String × Doc)
  lessons : List (String × Doc)
  llm_reports : List Report

/-- Exceptions a route body can raise: an explicit `HTTPException` or any
other Python exception carrying a message. -/
inductive PyErr where
  | httpExc (status : Nat) (detail : String)
  | pyExc (msg : String)

/-- Embedding of `str(e)`: starlette renders an `HTTPException` as
"status: detail"; any other exception is its message. -/
def errStr : PyErr → String
  | .httpExc status detail => toString status ++ ": " ++ detail
  | .pyExc msg => msg

/-- `find_one({"_id": oid})` on a collection keyed by id string. -/
def findDoc (coll : List (String × Doc)) (oid : String) : Option Doc :=
  (coll.find? (fun p => p.1 == oid)).map (fun p => p.2)

/-- `find_one({"_id": ref})` where the reference value was read out of
another document: only a string reference can match a stored document. -/
def findRef (coll : List (String × Doc)) (ref : BVal) : Option Doc :=
  match ref with
  | .str s => findDoc coll s
  | _ => none

/-- `db.llm_reports.find_one({"session_id": sid})`: the first report whose
`session_id` field matches. -/
def findReport (reports : List Report) (sid : String) : Option Report :=
  reports.find? (fun rep => rep.session_id == sid)

/-- Python dict assignment `bucket[key] = v`: overwrite the binding when
the key is present, append it otherwise. -/
def pyInsert (m : List (String × StepAnalysis)) (k : String) (v : StepAnalysis) :
    List (String × StepAnalysis) :=
  if m.any (fun p => p.1 == k) then
    m.map (fun p => if p.1 == k then (k, v) else p)
  else m ++ [(k, v)]

/-- The bucket key `f"step_{step_id}"`. -/
def stepKey (step_id : Int) : String := "step_" ++ toString step_id

/-- The bucket-routing `if/elif` chain of `analyze_step_completion`
(lines 110-115): a step type outside the three known ones changes nothing. -/
def updateBuckets (sr : StepReports) (step_type : String) (k : String)
    (a : StepAnalysis) : StepReports :=
  if step_type = "AI_CONVERSATION" then
    { sr with voice_reports := pyInsert sr.voice_reports k a }
  else if step_type = "AI_CV_GAME" then
    { sr with game_reports := pyInsert sr.game_reports k a }
  else if step_type = "AI_QUIZ" then
    { sr with test_reports := pyInsert sr.test_reports k a }
  else sr

/-- `update_one({"_id": rid}, {"$set": {step_reports, updated_at}})`. -/
def updateReportDoc (reports : List Report) (rid : Nat) (sr : StepReports)
    (now : Nat) : List Report :=
  reports.map (fun rep =>
    if rep._id == rid then { rep with step_reports := sr, updated_at := now }
    else rep)

/-- The blanket `except Exception as e: raise HTTPException(status_code=500,
detail=msgPre + str(e))` clause shared by all four route handlers.  Because
FastAPI's `HTTPException` is a subclass of `Exception`, the 404s raised
inside the `try` block are caught here too and re-surface as 500s. -/
def wrapRoute (msgPre : String) : Except PyErr α → Except (Nat × String) α
  | .ok v => .ok v
  | .error e => .error (500, msgPre ++ errStr e)

/-- Response of the session-init route. -/
structure InitResp where
  status : String
  message : String
  report_id : Nat
  child_name : BVal
  lesson_name : BVal

/-- Body of `initialize_session_analysis` (lines 34-79, inside the `try`):
look up the session (404 when absent), read its child and lesson references
(KeyError when missing), create a fresh report document with empty buckets
and insert it unconditionally — there is no check for an existing report. -/
def init_session_body (db : DB) (sid : String) (newOid : Nat) (now : Nat) :
    Except PyErr (InitResp × DB) :=
  match findDoc db.sessions sid with
  | none => .error (.httpExc 404 "Session not found")
  | some session =>
    match dlookup session "child_id" with
    | none => .error (.pyExc "KeyError: child_id")
    | some childIdV =>
      match dlookup session "lesson_id" with
      | none => .error (.pyExc "KeyError: lesson_id")
      | some lessonIdV =>
        let child := findRef db.children childIdV
        let lesson := findRef db.lessons lessonIdV
        let rep : Report :=
          { _id := newOid, session_id := sid, child_id := childIdV,
            step_reports := emptyStepReports,
            created_at := now, updated_at := now, finalized_at := none }
        .ok
          ({ status := "success", message := "Session analysis initialized",
             report_id := newOid,
             child_name :=
               match child with
               | some c => dget c "name" BVal.null
               | none => BVal.str "Unknown",
             lesson_name :=
               match lesson with
               | some l => dget l "lesson_name" BVal.null
               | none => BVal.str "Unknown" },
           { db with llm_reports := db.llm_reports ++ [rep] })

/-- The HTTP-level session-init route (`POST /analysis/session/initialize`
in the source, handler `initialize_session_analysis`). -/
def init_session_analysis (db : DB) (sid : String) (newOid : Nat) (now : Nat) :
    Except (Nat × String) (InitResp × DB) :=
  wrapRoute "Failed to initialize session: " (init_session_body db sid newOid now)

/-- Response of the analyze-step route. -/
structure StepResp where
  status : String
  message : String
  analysis : StepAnalysis

/-- Body of `analyze_step_completion` (lines 81-135, inside the `try`):
look up the session (404 when absent), read its child and lesson
references (KeyError when missing), look up the report by session id (404
when absent), generate the step analysis, route it into the bucket matching
the step type, and persist the updated report. -/
def analyze_step_body (db : DB) (sid : String) (step_result : StepResult)
    (llm : Except String String) (now : Nat) :
    Except PyErr (StepResp × DB) :=
  match findDoc db.sessions sid with
  | none => .error (.httpExc 404 "Session not found")
  | some session =>
    match dlookup session "child_id" with
    | none => .error (.pyExc "KeyError: child_id")
    | some childIdV =>
      match dlookup session "lesson_id" with
      | none => .error (.pyExc "KeyError: lesson_id")
      | some _lessonIdV =>
        let _child := findRef db.children childIdV
        match findReport db.llm_reports sid with
        | none => .error (.httpExc 404 "LLM report not found")
        | some rep =>
          let step_analysis := generate_step_analysis step_result llm now
          let sr := updateBuckets rep.step_reports step_result.step_type
            (stepKey step_result.step_id) step_analysis
          .ok
            ({ status := "success",
               message := "Step " ++ toString step_result.step_id
                 ++ " analysis completed",
               analysis := step_analysis },
             { db with llm_reports := updateReportDoc db.llm_reports rep._id sr now })

/-- The HTTP-level analyze-step route
(`POST /analysis/session/analyze-step`). -/
def analyze_step_completion (db : DB) (sid : String) (step_result : StepResult)
    (llm : Except String String) (now : Nat) :
    Except (Nat × String) (StepResp × DB) :=
  wrapRoute "Failed to analyze step: " (analyze_step_body db sid step_result llm now)

/-- Response of the get-report route (the `_id` string serialization of the
returned document is not modelled; the report is returned as stored). -/
structure ReportResp where
  status : String
  report : Report

/-- Body of `get_session_report` (lines 137-154, inside the `try`). -/
def get_report_body (db : DB) (sid : String) : Except PyErr ReportResp :=
  match findReport db.llm_reports sid with
  | none => .error (.httpExc 404 "Report not found")
  | some rep => .ok { status := "success", report := rep }

/-- The HTTP-level get-report route
(`GET /analysis/session/.../report`). -/
def get_session_report (db : DB) (sid : String) :
    Except (Nat × String) ReportResp :=
  wrapRoute "Failed to get report: " (get_report_body db sid)

/-- Response of the finalize route. -/
structure FinalResp where
  status : String
  message : String
  final_analysis : FinalAnalysis

/-- Body of `finalize_session_analysis` (lines 156-198, inside the `try`):
look up session, child/lesson references and report as in the step route,
generate the final analysis, and persist it into the `final_report` and
`suggestion` slots together with the finalization timestamp. -/
def finalize_body (db : DB) (sid : String) (llm : Except String String)
    (now : Nat) : Except PyErr (FinalResp × DB) :=
  match findDoc db.sessions sid with
  | none => .error (.httpExc 404 "Session not found")
  | some session =>
    match dlookup session "child_id" with
    | none => .error (.pyExc "KeyError: child_id")
    | some childIdV =>
      match dlookup session "lesson_id" with
      | none => .error (.pyExc "KeyError: lesson_id")
      | some _lessonIdV =>
        let _child := findRef db.children childIdV
        match findReport db.llm_reports sid with
        | none => .error (.httpExc 404 "LLM report not found")
        | some rep =>
          let fa := generate_final_analysis session rep.step_reports llm now
          .ok
            ({ status := "success", message := "Session analysis finalized",
               final_analysis := fa },
             { db with llm_reports := db.llm_reports.map (fun rp =>
                 if rp._id == rep._id then
                   { rp with
                     step_reports :=
                       { rp.step_reports with
                         final_report := some fa.final_report,
                         suggestion := some fa.suggestions },
                     finalized_at := some now, updated_at := now }
                 else rp) })

/-- The HTTP-level finalize route
(`POST /analysis/session/.../finalize`). -/
def finalize_session_analysis (db : DB) (sid : String)
    (llm : Except String String) (now : Nat) :
    Except (Nat × String) (FinalResp × DB) :=
  wrapRoute "Failed to finalize session: " (finalize_body db sid llm now)

/-- The step dicts of a `step_results` value: iterating a non-list or
calling `.get` on a non-dict element raises, modelled as `none`. -/
def stepDocs : BVal → Option (List Doc)
  | .arr xs => mapO (fun v => match v with | .doc d => some d | _ => none) xs
  | _ => none

/-- Result shape of `analyze_session` in `session-agent/app/logic.py`. -/
structure SessAnalysis where
  session_id : BVal
  summary : BVal
  total_steps : Nat
  completed_steps : Nat
  average_step_duration : ℚ

/-- Embedding of `generate_llm_analysis` (logic.py lines 28-70): the LLM
text on success; on any failure the stored `llm_analysis_report` value, or
the fixed fallback string when that key is absent. -/
def generate_llm_analysis (session : Doc) (llm : Except String String) : BVal :=
  match llm with
  | Except.ok t => BVal.str t
  | Except.error _ =>
    dget session "llm_analysis_report"
      (BVal.str "LLM analysis failed. Using original summary.")

/-- Embedding of `analyze_session` (logic.py lines 10-26).  `none` models a
raised exception (non-list `step_results`, non-dict step, or non-numeric
duration fed to `sum`).  The average is the exact rational value of the
Python float division, and the empty-steps case is guarded to 0. -/
def analyze_session (session : Doc) (llm : Except String String) :
    Option SessAnalysis :=
  match stepDocs (dget session "step_results" (BVal.arr [])) with
  | none => none
  | some steps =>
    match mapO (fun s => asNum (dget s "duration_seconds" (BVal.int 0))) steps with
    | none => none
    | some durs =>
      let completed_steps :=
        steps.filter (fun s => pyTruthy (dget s "is_successful" BVal.null))
      some
        { session_id := dget session "_id" BVal.null,
          summary := generate_llm_analysis session llm,
          total_steps := steps.length,
          completed_steps := completed_steps.length,
          average_step_duration :=
            if steps.isEmpty then 0
            else ((durs.sum : ℚ) / (steps.length : ℚ)) }

/-- Clamp-and-truncate evaluation helper: when the adjusted rational equals
an integer already inside [0, 100], the final score is that integer. -/
theorem score_clamp_eval (c : ℚ) (k : Int) (h : c = ((k : ℚ)))
    (h0 : 0 ≤ k) (h100 : k ≤ 100) :
    min 100 (max 0 (pyTrunc c)) = k := by
  rw [h, pyTrunc_intCast, max_eq_right h0, min_eq_right h100]

/-- Claim C2, counterexample: a successful step with `duration_seconds = 0`
has duration below 60 yet scores 100, not 80 — the Python truthiness guard
skips the 0.8 adjustment for a zero duration. -/
theorem score_duration_zero_counterexample :
    calculate_performance_score
      { step_id := 1, step_type := "AI_QUIZ", is_successful := some true,
        duration_seconds := some 0, details := none } = 100 ∧
    ((0 : Int) < 60) ∧ ((100 : Int) ≠ 80) := by
  refine ⟨?_, by decide, by decide⟩
  show min 100 (max 0 (pyTrunc ((100 : ℚ)))) = 100
  exact score_clamp_eval _ 100 (by norm_num) (by decide) (by decide)

/-- Claim C2 (amended): full characterization of the step score.  Unknown
success flag gives 0; the duration adjustment applies only when the duration
is present and nonzero; with it, a successful step scores 80 below 60
seconds, 90 above 300 and 100 otherwise, and a failed step scores 24, 27 and
30 respectively; absent or zero durations keep the bases 100 and 30. -/
theorem calculate_performance_score_characterization (r : StepResult) :
    calculate_performance_score r =
      match r.is_successful, r.duration_seconds with
      | none, _ => 0
      | some ok, none => if ok then 100 else 30
      | some ok, some d =>
        if d = 0 then (if ok then 100 else 30)
        else if d < 60 then (if ok then 80 else 24)
        else if d > 300 then (if ok then 90 else 27)
        else (if ok then 100 else 30) := by
  obtain ⟨sid, sty, os, od, det⟩ := r
  cases os with
  | none => rfl
  | some ok =>
    cases od with
    | none =>
      cases ok
      · show min 100 (max 0 (pyTrunc ((30 : ℚ)))) = 30
        exact score_clamp_eval _ 30 (by norm_num) (by decide) (by decide)
      · show min 100 (max 0 (pyTrunc ((100 : ℚ)))) = 100
        exact score_clamp_eval _ 100 (by norm_num) (by decide) (by decide)
    | some d =>
      by_cases hd : d = 0
      · subst hd
        cases ok
        · show min 100 (max 0 (pyTrunc ((30 : ℚ)))) = 30
          exact score_clamp_eval _ 30 (by norm_num) (by decide) (by decide)
        · show min 100 (max 0 (pyTrunc ((100 : ℚ)))) = 100
          exact score_clamp_eval _ 100 (by norm_num) (by decide) (by decide)
      · simp only [calculate_performance_score, bne_iff_ne, ne_eq, hd,
          not_false_eq_true, if_true, if_neg hd]
        by_cases h60 : d < 60
        · rw [if_pos h60, if_pos h60]
          cases ok
          · exact score_clamp_eval _ 24 (by norm_num) (by decide) (by decide)
          · exact score_clamp_eval _ 80 (by norm_num) (by decide) (by decide)
        · rw [if_neg h60, if_neg h60]
          by_cases h300 : d > 300
          · rw [if_pos h300, if_pos h300]
            cases ok
            · exact score_clamp_eval _ 27 (by norm_num) (by decide) (by decide)
            · exact score_clamp_eval _ 90 (by norm_num) (by decide) (by decide)
          · rw [if_neg h300, if_neg h300]
            cases ok
            · exact score_clamp_eval _ 30 (by norm_num) (by decide) (by decide)
            · exact score_clamp_eval _ 100 (by norm_num) (by decide) (by decide)

/-- Claim C10: the step score is a function of the success flag and the
duration alone — step id, step type, details and any LLM text are
noninterfering. -/
theorem calculate_performance_score_noninterference (r1 r2 : StepResult)
    (hsucc : r1.is_successful = r2.is_successful)
    (hdur : r1.duration_seconds = r2.duration_seconds) :
    calculate_performance_score r1 = calculate_performance_score r2 := by
  unfold calculate_performance_score
  rw [hsucc, hdur]

/-- Witness for claim C10: two step results differing in id, type and
details but agreeing on the score-relevant fields get the same score. -/
theorem calculate_performance_score_noninterference_witness :
    calculate_performance_score
      { step_id := 1, step_type := "AI_QUIZ", is_successful := some true,
        duration_seconds := some 120, details := none } =
    calculate_performance_score
      { step_id := 99, step_type := "SOMETHING_ELSE", is_successful := some true,
        duration_seconds := some 120,
        details := some [("answers", BVal.int 3)] } :=
  calculate_performance_score_noninterference _ _ rfl rfl

/-- Claim C5: the suggestion extractor returns at most 5 strings, each one
a trimmed line of the input whose lowercasing contains one of the fixed
keywords and whose length exceeds 10, and the returned strings keep the
order of their lines in the input. -/
theorem extract_suggestions_spec (text : String) :
    (extract_suggestions text).length ≤ 5 ∧
    List.Sublist (extract_suggestions text)
      ((text.splitOn "\n").map String.trim) ∧
    ∀ s ∈ extract_suggestions text,
      (∃ kw ∈ suggestionKeywords, ∃ l r, (pyLower s).data = l ++ kw.data ++ r) ∧
      10 < s.length := by
  refine ⟨?_, ?_, ?_⟩
  · exact List.length_take_le _ _
  · exact (List.take_sublist 5 _).trans (List.filter_sublist _)
  · intro s hs
    have hs2 : s ∈ (((text.splitOn "\n").map String.trim).filter
        (fun line =>
          suggestionKeywords.any (fun kw => subAt kw.data (pyLower line).data)
            && decide (10 < line.length))) :=
      (List.take_sublist 5 _).subset hs
    have hp := (List.mem_filter.mp hs2).2
    rw [Bool.and_eq_true] at hp
    obtain ⟨h1, h2⟩ := hp
    constructor
    · obtain ⟨kw, hkw, hsub⟩ := List.any_eq_true.mp h1
      exact ⟨kw, hkw, (subAt_iff _ _).mp hsub⟩
    · exact of_decide_eq_true h2

/-- Witness for claim C5 at a concrete two-line report text. -/
theorem extract_suggestions_spec_witness :
    (extract_suggestions "Öneri: her gün kitap oku\nkısa").length ≤ 5 ∧
    List.Sublist (extract_suggestions "Öneri: her gün kitap oku\nkısa")
      ((("Öneri: her gün kitap oku\nkısa" : String).splitOn "\n").map String.trim) ∧
    ∀ s ∈ extract_suggestions "Öneri: her gün kitap oku\nkısa",
      (∃ kw ∈ suggestionKeywords, ∃ l r, (pyLower s).data = l ++ kw.data ++ r) ∧
      10 < s.length :=
  extract_suggestions_spec "Öneri: her gün kitap oku\nkısa"

/-- Claim C6, counterexample: with `total_score` present but null, the
overall score is null — not 0 and not an integer at all, because
`dict.get(key, 0)` only falls back to the default when the key is absent. -/
theorem calculate_overall_score_null_counterexample :
    calculate_overall_score [("total_score", BVal.null)] emptyStepReports
      = BVal.null ∧
    ∀ n : Int,
      calculate_overall_score [("total_score", BVal.null)] emptyStepReports
        ≠ BVal.int n := by
  refine ⟨rfl, ?_⟩
  intro n h
  exact nomatch h

/-- Claim C6 (amended): the overall score is the stored `total_score` value
verbatim whenever the key is present — including null and non-integer
values — and the integer 0 exactly when the key is absent. -/
theorem calculate_overall_score_characterization (session : Doc)
    (sr : StepReports) :
    (∀ v, dlookup session "total_score" = some v →
      calculate_overall_score session sr = v) ∧
    (dlookup session "total_score" = none →
      calculate_overall_score session sr = BVal.int 0) := by
  constructor
  · intro v hv
    unfold calculate_overall_score dget
    rw [hv]
    rfl
  · intro hv
    unfold calculate_overall_score dget
    rw [hv]
    rfl

/-- Witness for claim C6 (amended): a stored integer score is returned. -/
theorem calculate_overall_score_characterization_witness :
    calculate_overall_score [("total_score", BVal.int 85)] emptyStepReports
      = BVal.int 85 :=
  (calculate_overall_score_characterization _ _).1 (BVal.int 85) rfl

/-- Unpacking a list of wrapped documents never fails. -/
theorem mapO_doc (l : List Doc) :
    mapO (fun v => match v with | BVal.doc d => some d | _ => none)
      (l.map BVal.doc) = some l := by
  induction l with
  | nil => rfl
  | cons d t ih =>
    rw [List.map_cons, mapO, ih]

/-- Unpacking step dicts from an embedded array of documents. -/
theorem stepDocs_map (steps : List Doc) :
    stepDocs (BVal.arr (steps.map BVal.doc)) = some steps := by
  simp only [stepDocs]
  exact mapO_doc steps

/-- Claim C9: on any session whose `step_results` is a list of step dicts
with numeric (or absent, defaulted-to-0) durations, `analyze_session`
returns metrics where `total_steps` is the number of steps,
`completed_steps` counts the truthy success flags, and the average duration
is the guarded division — 0 for an empty step list. -/
theorem analyze_session_metrics_spec (session : Doc) (steps : List Doc)
    (durs : List Int) (llm : Except String String)
    (hsteps : dget session "step_results" (BVal.arr []) =
      BVal.arr (steps.map BVal.doc))
    (hdurs : mapO (fun s => asNum (dget s "duration_seconds" (BVal.int 0))) steps
      = some durs) :
    ∃ res, analyze_session session llm = some res ∧
      res.total_steps = steps.length ∧
      res.completed_steps =
        (steps.filter (fun s => pyTruthy (dget s "is_successful" BVal.null))).length ∧
      res.average_step_duration =
        (if steps.isEmpty then 0 else ((durs.sum : ℚ) / (steps.length : ℚ))) := by
  unfold analyze_session
  rw [hsteps, stepDocs_map]
  simp only [hdurs]
  exact ⟨_, rfl, rfl, rfl, rfl⟩

/-- Sample step dicts and session document for the metrics witness. -/
def stepDocA : Doc :=
  [("step_id", BVal.int 1), ("is_successful", BVal.bool true),
   ("duration_seconds", BVal.int 30)]

def stepDocB : Doc :=
  [("step_id", BVal.int 2), ("is_successful", BVal.null),
   ("duration_seconds", BVal.int 60)]

def sessDocA : Doc :=
  [("_id", BVal.str "sess-1"), ("total_score", BVal.int 70),
   ("step_results", BVal.arr [BVal.doc stepDocA, BVal.doc stepDocB])]

/-- Witness for claim C9 at a concrete two-step session. -/
theorem analyze_session_metrics_spec_witness :
    ∃ res, analyze_session sessDocA (Except.ok "özet") = some res ∧
      res.total_steps = ([stepDocA, stepDocB] : List Doc).length ∧
      res.completed_steps =
        (([stepDocA, stepDocB] : List Doc).filter
          (fun s => pyTruthy (dget s "is_successful" BVal.null))).length ∧
      res.average_step_duration =
        (if ([stepDocA, stepDocB] : List Doc).isEmpty then 0
         else ((([30, 60] : List Int).sum : ℚ) /
           ((([stepDocA, stepDocB] : List Doc).length : ℕ) : ℚ))) :=
  analyze_session_metrics_spec sessDocA [stepDocA, stepDocB] [30, 60]
    (Except.ok "özet") rfl rfl

/-- The bucket a given step type is routed to (empty for unknown types). -/
def bucketFor (step_type : String) (sr : StepReports) :
    List (String × StepAnalysis) :=
  if step_type = "AI_CONVERSATION" then sr.voice_reports
  else if step_type = "AI_CV_GAME" then sr.game_reports
  else if step_type = "AI_QUIZ" then sr.test_reports
  else []

/-- Dict assignment makes the binding present. -/
theorem pyInsert_mem (m : List (String × StepAnalysis)) (k : String)
    (v : StepAnalysis) : (k, v) ∈ pyInsert m k v := by
  unfold pyInsert
  by_cases h : m.any (fun p => p.1 == k)
  · rw [if_pos h]
    obtain ⟨p, hp, hpk⟩ := List.any_eq_true.mp h
    refine List.mem_map.mpr ⟨p, hp, ?_⟩
    simp only [hpk, if_true]
  · rw [if_neg h]
    exact List.mem_append_right _ (List.mem_singleton.mpr rfl)

/-- Two assignments under the same key starting from an empty dict leave
exactly the second binding. -/
theorem pyInsert_overwrite (k : String) (a1 a2 : StepAnalysis) :
    pyInsert (pyInsert [] k a1) k a2 = [(k, a2)] := by
  show pyInsert [(k, a1)] k a2 = [(k, a2)]
  unfold pyInsert
  simp

/-- An empty store and a store holding one session (with child and lesson
references) but no report, used as failing inputs. -/
def emptyDB : DB :=
  { sessions := [], children := [], lessons := [], llm_reports := [] }

def sessOnlyDB : DB :=
  { sessions := [("s1", [("child_id", BVal.str "c1"),
      ("lesson_id", BVal.str "l1")])],
    children := [], lessons := [], llm_reports := [] }

/-- Claim C1 (refuting the 404): because the blanket
`except Exception` clause of every handler also catches the
`HTTPException(404)` raised inside the `try` block and re-raises it as a
500, a request whose session or report is absent surfaces as a 500 whose
detail merely embeds the 404 message — not as a 404 response. -/
theorem routes_absent_entity_returns_500 :
    get_session_report emptyDB "s1" =
      Except.error (500, "Failed to get report: 404: Report not found") ∧
    init_session_analysis emptyDB "s1" 1 0 =
      Except.error (500, "Failed to initialize session: 404: Session not found") ∧
    analyze_step_completion emptyDB "s1"
      { step_id := 1, step_type := "AI_QUIZ", is_successful := some true,
        duration_seconds := some 45, details := none } (Except.ok "analiz") 0 =
      Except.error (500, "Failed to analyze step: 404: Session not found") ∧
    finalize_session_analysis emptyDB "s1" (Except.ok "analiz") 0 =
      Except.error (500, "Failed to finalize session: 404: Session not found") ∧
    analyze_step_completion sessOnlyDB "s1"
      { step_id := 1, step_type := "AI_QUIZ", is_successful := some true,
        duration_seconds := some 45, details := none } (Except.ok "analiz") 0 =
      Except.error (500, "Failed to analyze step: 404: LLM report not found") ∧
    finalize_session_analysis sessOnlyDB "s1" (Except.ok "analiz") 0 =
      Except.error (500, "Failed to finalize session: 404: LLM report not found") :=
  ⟨rfl, rfl, rfl, rfl, rfl, rfl⟩

/-- Claim C3, counterexample: two session-init calls for the same session
both succeed (no Conflict) and leave two report documents for that session
in the store. -/
theorem init_twice_no_conflict_counterexample :
    ∃ p q,
      init_session_analysis sessOnlyDB "s1" 1 10 = Except.ok p ∧
      p.1.status = "success" ∧
      init_session_analysis p.2 "s1" 2 11 = Except.ok q ∧
      q.1.status = "success" ∧
      (q.2.llm_reports.filter (fun rep => rep.session_id == "s1")).length = 2 :=
  ⟨_, _, rfl, rfl, rfl, rfl, rfl⟩

/-- Claim C3 (amended): the session-init route performs no existing-report
check: whenever the session exists (with its child and lesson references),
the call succeeds and appends one more report document for that session,
regardless of any report already stored. -/
theorem init_session_inserts_unconditionally (db : DB) (sid : String)
    (s : Doc) (cv lv : BVal) (newOid now : Nat)
    (hs : findDoc db.sessions sid = some s)
    (hc : dlookup s "child_id" = some cv)
    (hl : dlookup s "lesson_id" = some lv) :
    ∃ p, init_session_analysis db sid newOid now = Except.ok p ∧
      p.1.status = "success" ∧
      p.2.llm_reports = db.llm_reports ++
        [{ _id := newOid, session_id := sid, child_id := cv,
           step_reports := emptyStepReports, created_at := now,
           updated_at := now, finalized_at := none }] := by
  unfold init_session_analysis init_session_body
  rw [hs]
  simp only [hc, hl]
  exact ⟨_, rfl, rfl, rfl⟩

/-- Witness for claim C3 (amended), on a store already holding no report. -/
theorem init_session_inserts_unconditionally_witness :
    ∃ p, init_session_analysis sessOnlyDB "s1" 7 3 = Except.ok p ∧
      p.1.status = "success" ∧
      p.2.llm_reports = sessOnlyDB.llm_reports ++
        [{ _id := 7, session_id := "s1", child_id := BVal.str "c1",
           step_reports := emptyStepReports, created_at := 3,
           updated_at := 3, finalized_at := none }] :=
  init_session_inserts_unconditionally sessOnlyDB "s1" _ _ _ 7 3 rfl rfl rfl

/-- Finding the only report of the store when its session id matches. -/
theorem findReport_singleton (rep : Report) (sid : String)
    (h : rep.session_id = sid) : findReport [rep] sid = some rep := by
  simp [findReport, List.find?, h]

/-- Updating the only report of the store by its own id. -/
theorem updateReportDoc_self (rep : Report) (sr : StepReports) (now : Nat) :
    updateReportDoc [rep] rep._id sr now =
      [{ rep with step_reports := sr, updated_at := now }] := by
  simp [updateReportDoc]

/-- An unknown step type leaves the bucket structure untouched. -/
theorem updateBuckets_unknown (sr : StepReports) (ty k : String)
    (a : StepAnalysis) (h1 : ty ≠ "AI_CONVERSATION") (h2 : ty ≠ "AI_CV_GAME")
    (h3 : ty ≠ "AI_QUIZ") : updateBuckets sr ty k a = sr := by
  unfold updateBuckets
  rw [if_neg h1, if_neg h2, if_neg h3]

/-- A known step type routes the assignment into its bucket. -/
theorem updateBuckets_known_mem (sr : StepReports) (ty k : String)
    (a : StepAnalysis) (h : ty ∈ knownStepTypes) :
    (k, a) ∈ bucketFor ty (updateBuckets sr ty k a) := by
  have h3 : ty = "AI_CONVERSATION" ∨ ty = "AI_CV_GAME" ∨ ty = "AI_QUIZ" := by
    simpa [knownStepTypes] using h
  rcases h3 with rfl | rfl | rfl <;>
    · simp [updateBuckets, bucketFor]
      exact pyInsert_mem _ _ _

/-- Two assignments to the same key of the same known bucket, starting from
the freshly initialized structure, leave exactly the second binding. -/
theorem updateBuckets_twice_same (t k : String) (a1 a2 : StepAnalysis)
    (h : t ∈ knownStepTypes) :
    bucketFor t (updateBuckets (updateBuckets emptyStepReports t k a1) t k a2)
      = [(k, a2)] := by
  have h3 : t = "AI_CONVERSATION" ∨ t = "AI_CV_GAME" ∨ t = "AI_QUIZ" := by
    simpa [knownStepTypes] using h
  rcases h3 with rfl | rfl | rfl <;>
    · simp [updateBuckets, bucketFor, emptyStepReports]
      exact pyInsert_overwrite k a1 a2

/-- Success path of the analyze-step route on a store whose only report
belongs to the requested session: the response carries the generated
analysis and the store now holds the report with the routed bucket update
and a bumped `updated_at`. -/
theorem analyze_step_success (db : DB) (sid : String) (s : Doc) (cv lv : BVal)
    (rep : Report) (r : StepResult) (llm : Except String String) (now : Nat)
    (hs : findDoc db.sessions sid = some s)
    (hc : dlookup s "child_id" = some cv)
    (hl : dlookup s "lesson_id" = some lv)
    (hreps : db.llm_reports = [rep])
    (hrs : rep.session_id = sid) :
    analyze_step_completion db sid r llm now =
      Except.ok
        ({ status := "success",
           message := "Step " ++ toString r.step_id ++ " analysis completed",
           analysis := generate_step_analysis r llm now },
         { db with llm_reports :=
             [{ rep with
                step_reports := updateBuckets rep.step_reports r.step_type
                  (stepKey r.step_id) (generate_step_analysis r llm now),
                updated_at := now }] }) := by
  unfold analyze_step_completion wrapRoute analyze_step_body
  rw [hs]
  simp only [hc, hl, hreps, findReport_singleton rep sid hrs,
    updateReportDoc_self]

/-- A step type with a prompt branch propagates the raised LLM error into
the degraded analysis record. -/
theorem generate_step_analysis_error (r : StepResult) (e : String) (now : Nat)
    (h : r.step_type ∈ knownStepTypes) :
    generate_step_analysis r (Except.error e) now =
      { step_id := r.step_id, step_type := r.step_type,
        analysis := "Analiz hatası: " ++ e, performance_score := 0,
        generated_at := now } := by
  simp only [generate_step_analysis]
  rw [if_pos (show (knownStepTypes.contains r.step_type) = true from
    List.elem_eq_true_of_mem h)]

/-- Claim C4: when the prompt-plus-LLM attempt raises during recordStep on
a known step type, the route still succeeds with status "success", the
returned analysis embeds the error text and carries score 0, and the
degraded record is persisted into the matching bucket of the report. -/
theorem record_step_llm_failure_degraded (db : DB) (sid : String) (s : Doc)
    (cv lv : BVal) (rep : Report) (r : StepResult) (e : String) (now : Nat)
    (hs : findDoc db.sessions sid = some s)
    (hc : dlookup s "child_id" = some cv)
    (hl : dlookup s "lesson_id" = some lv)
    (hreps : db.llm_reports = [rep])
    (hrs : rep.session_id = sid)
    (hknown : r.step_type ∈ knownStepTypes) :
    ∃ p, analyze_step_completion db sid r (Except.error e) now = Except.ok p ∧
      p.1.status = "success" ∧
      p.1.analysis.performance_score = 0 ∧
      p.1.analysis.analysis = "Analiz hatası: " ++ e ∧
      ∃ rep2, findReport p.2.llm_reports sid = some rep2 ∧
        (stepKey r.step_id, p.1.analysis) ∈
          bucketFor r.step_type rep2.step_reports := by
  refine ⟨_, analyze_step_success db sid s cv lv rep r (Except.error e) now
    hs hc hl hreps hrs, rfl, ?_, ?_, ?_⟩
  · rw [generate_step_analysis_error r e now hknown]
  · rw [generate_step_analysis_error r e now hknown]
  · exact ⟨_, findReport_singleton _ _ hrs,
      updateBuckets_known_mem _ _ _ _ hknown⟩

/-- One-session, one-report store used as concrete witness input. -/
def repA : Report :=
  { _id := 7, session_id := "s1", child_id := BVal.str "c1",
    step_reports := emptyStepReports, created_at := 0, updated_at := 0,
    finalized_at := none }

def dbA : DB :=
  { sessions := [("s1", [("child_id", BVal.str "c1"),
      ("lesson_id", BVal.str "l1")])],
    children := [], lessons := [], llm_reports := [repA] }

/-- Witness for claim C4 on the concrete store. -/
theorem record_step_llm_failure_degraded_witness :
    ∃ p, analyze_step_completion dbA "s1"
        { step_id := 3, step_type := "AI_QUIZ", is_successful := some true,
          duration_seconds := some 45, details := none }
        (Except.error "timeout") 5 = Except.ok p ∧
      p.1.status = "success" ∧
      p.1.analysis.performance_score = 0 ∧
      p.1.analysis.analysis = "Analiz hatası: " ++ "timeout" ∧
      ∃ rep2, findReport p.2.llm_reports "s1" = some rep2 ∧
        (stepKey 3, p.1.analysis) ∈ bucketFor "AI_QUIZ" rep2.step_reports :=
  record_step_llm_failure_degraded dbA "s1" _ _ _ repA _ "timeout" 5
    rfl rfl rfl rfl rfl (by decide)

/-- Claim C7: two recordStep calls with the same step id and the same known
step type, starting from a freshly initialized report, leave the bucket of
that type holding exactly one binding under `step_<id>` — the analysis of
the second call. -/
theorem record_step_same_id_overwrites (db : DB) (sid : String) (s : Doc)
    (cv lv : BVal) (rep : Report) (r1 r2 : StepResult)
    (llm1 llm2 : Except String String) (n1 n2 : Nat) (t : String)
    (hs : findDoc db.sessions sid = some s)
    (hc : dlookup s "child_id" = some cv)
    (hl : dlookup s "lesson_id" = some lv)
    (hreps : db.llm_reports = [rep])
    (hrs : rep.session_id = sid)
    (hempty : rep.step_reports = emptyStepReports)
    (ht1 : r1.step_type = t) (ht2 : r2.step_type = t)
    (hknown : t ∈ knownStepTypes)
    (hid : r1.step_id = r2.step_id) :
    ∃ p q,
      analyze_step_completion db sid r1 llm1 n1 = Except.ok p ∧
      analyze_step_completion p.2 sid r2 llm2 n2 = Except.ok q ∧
      ∃ rep2, findReport q.2.llm_reports sid = some rep2 ∧
        bucketFor t rep2.step_reports =
          [(stepKey r2.step_id, generate_step_analysis r2 llm2 n2)] := by
  refine ⟨_, _,
    analyze_step_success db sid s cv lv rep r1 llm1 n1 hs hc hl hreps hrs,
    analyze_step_success _ sid s cv lv _ r2 llm2 n2 hs hc hl rfl hrs,
    _, findReport_singleton _ _ hrs, ?_⟩
  show bucketFor t (updateBuckets (updateBuckets rep.step_reports
    r1.step_type (stepKey r1.step_id) (generate_step_analysis r1 llm1 n1))
    r2.step_type (stepKey r2.step_id) (generate_step_analysis r2 llm2 n2))
    = [(stepKey r2.step_id, generate_step_analysis r2 llm2 n2)]
  rw [hempty, ht1, ht2, hid]
  exact updateBuckets_twice_same t (stepKey r2.step_id) _ _ hknown

/-- Witness for claim C7 on the concrete store. -/
theorem record_step_same_id_overwrites_witness :
    ∃ p q,
      analyze_step_completion dbA "s1"
        { step_id := 3, step_type := "AI_QUIZ", is_successful := some true,
          duration_seconds := some 45, details := none }
        (Except.ok "ilk analiz") 5 = Except.ok p ∧
      analyze_step_completion p.2 "s1"
        { step_id := 3, step_type := "AI_QUIZ", is_successful := some false,
          duration_seconds := some 400, details := none }
        (Except.ok "ikinci analiz") 6 = Except.ok q ∧
      ∃ rep2, findReport q.2.llm_reports "s1" = some rep2 ∧
        bucketFor "AI_QUIZ" rep2.step_reports =
          [(stepKey 3, generate_step_analysis
            { step_id := 3, step_type := "AI_QUIZ", is_successful := some false,
              duration_seconds := some 400, details := none }
            (Except.ok "ikinci analiz") 6)] :=
  record_step_same_id_overwrites dbA "s1" _ _ _ repA _ _
    (Except.ok "ilk analiz") (Except.ok "ikinci analiz") 5 6 "AI_QUIZ"
    rfl rfl rfl rfl rfl rfl rfl rfl (by decide) rfl

/-- Claim C8: a recordStep call whose step type is none of the three known
ones still succeeds, and none of the three buckets of the stored report
changes — the step is silently dropped. -/
theorem record_step_unknown_type_dropped (db : DB) (sid : String) (s : Doc)
    (cv lv : BVal) (rep : Report) (r : StepResult)
    (llm : Except String String) (now : Nat)
    (hs : findDoc db.sessions sid = some s)
    (hc : dlookup s "child_id" = some cv)
    (hl : dlookup s "lesson_id" = some lv)
    (hreps : db.llm_reports = [rep])
    (hrs : rep.session_id = sid)
    (hunknown : r.step_type ∉ knownStepTypes) :
    ∃ p, analyze_step_completion db sid r llm now = Except.ok p ∧
      p.1.status = "success" ∧
      ∃ rep2, findReport p.2.llm_reports sid = some rep2 ∧
        rep2.step_reports.voice_reports = rep.step_reports.voice_reports ∧
        rep2.step_reports.game_reports = rep.step_reports.game_reports ∧
        rep2.step_reports.test_reports = rep.step_reports.test_reports := by
  have h3 : ¬ r.step_type = "AI_CONVERSATION" ∧ ¬ r.step_type = "AI_CV_GAME"
      ∧ ¬ r.step_type = "AI_QUIZ" := by
    simpa [knownStepTypes, not_or] using hunknown
  obtain ⟨h1, h2, h3⟩ := h3
  refine ⟨_, analyze_step_success db sid s cv lv rep r llm now
    hs hc hl hreps hrs, rfl, _, findReport_singleton _ _ hrs, ?_, ?_, ?_⟩ <;>
    rw [updateBuckets_unknown _ _ _ _ h1 h2 h3]

/-- Witness for claim C8 on the concrete store. -/
theorem record_step_unknown_type_dropped_witness :
    ∃ p, analyze_step_completion dbA "s1"
        { step_id := 4, step_type := "AI_PUZZLE", is_successful := some true,
          duration_seconds := some 90, details := none }
        (Except.ok "analiz") 5 = Except.ok p ∧
      p.1.status = "success" ∧
      ∃ rep2, findReport p.2.llm_reports "s1" = some rep2 ∧
        rep2.step_reports.voice_reports = repA.step_reports.voice_reports ∧
        rep2.step_reports.game_reports = repA.step_reports.game_reports ∧
        rep2.step_reports.test_reports = repA.step_reports.test_reports :=
  record_step_unknown_type_dropped dbA "s1" _ _ _ repA _ (Except.ok "analiz")
    5 rfl rfl rfl rfl rfl (by decide)
